import Mathlib

/-
Shallow embedding of src/src/CircleSimulation.ts (the physics/collision core,
interaction state machine, clock, and recording lifecycle of the CircleSimulation
class).  Machine floats (f64) are modelled as real numbers, so every numeric
statement below is the exact-arithmetic idealisation of the code; `Math.sqrt`
becomes `Real.sqrt`.  The drawing code (`draw`) has no effect on the modelled
state and is omitted, as are the random display color and the text overlays,
none of which any modelled field ever reads.

The code computes `angle = Math.atan2(dy, dx)` and then uses only
`Math.cos(angle)` and `Math.sin(angle)`; for `distance ≠ 0` these equal
`dx / distance` and `dy / distance`, and the embedding uses those closed forms
directly (claims about the `distance = 0` degeneracy, which the design notes
leave undefined, carry a `distance ≠ 0` hypothesis).
-/

namespace CircleSimulation

noncomputable section

/-- Mutable physics tuning parameters of the class (GRAVITY,
VELOCITY_INCREASE_FACTOR, VELOCITY_DECAY, BALL_GROWTH_RATE). -/
structure Config where
  GRAVITY : ℝ
  VELOCITY_INCREASE_FACTOR : ℝ
  VELOCITY_DECAY : ℝ
  BALL_GROWTH_RATE : ℝ

/-- Field initialisers of the class: GRAVITY = 0.4, VELOCITY_INCREASE_FACTOR = 1.02,
VELOCITY_DECAY = 0.9995, BALL_GROWTH_RATE = 1.015. -/
def defaultConfig : Config :=
  { GRAVITY := 0.4
    VELOCITY_INCREASE_FACTOR := 1.02
    VELOCITY_DECAY := 0.9995
    BALL_GROWTH_RATE := 1.015 }

/-- Read-only canvas dimensions fixed in the constructor. -/
structure Geometry where
  WIDTH : ℝ
  HEIGHT : ℝ

/-- Constructor: `this.CIRCLE_RADIUS = Math.min(this.WIDTH, this.HEIGHT) / 2 - 125`. -/
def CIRCLE_RADIUS (g : Geometry) : ℝ := min g.WIDTH g.HEIGHT / 2 - 125

/-- Constructor: `this.MAX_BALL_RADIUS = this.CIRCLE_RADIUS * 1.5`. -/
def MAX_BALL_RADIUS (g : Geometry) : ℝ := CIRCLE_RADIUS g * 1.5

/-- Class constant `INITIAL_BALL_RADIUS = 5`. -/
def INITIAL_BALL_RADIUS : ℝ := 5

/-- Class constant `MOTION_BLUR_STEPS = 5`. -/
def MOTION_BLUR_STEPS : ℕ := 5

/-- Class constant `MAX_COLLISION_POINTS = 50`. -/
def MAX_COLLISION_POINTS : ℕ := 50

/-- Position of the static boundary, recomputed in `update` and `draw`:
`[this.WIDTH / 2, this.HEIGHT / 2]`. -/
def circleCenter (g : Geometry) : ℝ × ℝ := (g.WIDTH / 2, g.HEIGHT / 2)

/-- State of the external MediaRecorder collaborator that the class can observe
through `.state`: `'inactive'` or `'recording'`. -/
inductive RecState where
  | inactive
  | recording
deriving DecidableEq

/-- One MediaRecorder instance; `rid` tracks object identity (each
`new MediaRecorder(...)` yields a fresh one). -/
structure Recorder where
  rid : ℕ
  recState : RecState
deriving DecidableEq

/-- Full mutable instance state of the CircleSimulation class.  Blobs and
completion callbacks are abstracted to natural-number identities; `completions`
logs each invocation of `onRecordingComplete` (the observable effect of the
MediaRecorder's `onstop` handler), and `collisionCount` logs each invocation of
the `onCollision` observer. -/
structure State where
  config : Config
  ballRadius : ℝ
  ballCenter : ℝ × ℝ
  ballVelocity : ℝ × ℝ
  collisionPoints : List (ℝ × ℝ)
  previousPositions : List (ℝ × ℝ)
  startTime : ℝ
  elapsedTime : ℝ
  running : Bool
  isDragging : Bool
  collisionCount : ℕ
  mediaRecorder : Option Recorder
  chunks : List ℕ
  onRecordingComplete : Option ℕ
  nextRecorderId : ℕ
  completions : List ℕ

/-- Push-then-trim pattern used for both histories:
`arr.push(x); if (arr.length > cap) arr.shift();`. -/
def pushCapped {α : Type} (cap : ℕ) (x : α) (l : List α) : List α :=
  let grown := l ++ [x]
  if cap < grown.length then grown.tail else grown

/-- Gravity step of `update`: `this.ballVelocity[1] += this.GRAVITY`. -/
def applyGravity (c : Config) (v : ℝ × ℝ) : ℝ × ℝ := (v.1, v.2 + c.GRAVITY)

/-- Decay step of `update`: both components multiplied by `this.VELOCITY_DECAY`. -/
def applyDecay (c : Config) (v : ℝ × ℝ) : ℝ × ℝ :=
  (v.1 * c.VELOCITY_DECAY, v.2 * c.VELOCITY_DECAY)

/-- Velocity after the gravity and decay steps of one `update` call. -/
def tickVelocity (c : Config) (v : ℝ × ℝ) : ℝ × ℝ := applyDecay c (applyGravity c v)

/-- Position integration step of `update`: `center += velocity`. -/
def tickCenter (p v : ℝ × ℝ) : ℝ × ℝ := (p.1 + v.1, p.2 + v.2)

/-- Euclidean distance as computed in `update` and `handleMouseDown`:
`Math.sqrt(dx * dx + dy * dy)`. -/
def distance (p q : ℝ × ℝ) : ℝ :=
  Real.sqrt ((p.1 - q.1) * (p.1 - q.1) + (p.2 - q.2) * (p.2 - q.2))

/-- Ball center after the integration step of `update` (before collision
handling). -/
def postCenter (s : State) : ℝ × ℝ :=
  tickCenter s.ballCenter (tickVelocity s.config s.ballVelocity)

/-- The `distance` local of `update`: distance from the post-integration ball
center to the boundary center. -/
def postDist (g : Geometry) (s : State) : ℝ :=
  distance (postCenter s) (circleCenter g)

/-- The contact normal `(nx, ny) = (dx / distance, dy / distance)` of `update`.
Also equals `(cos angle, sin angle)` for `angle = atan2(dy, dx)` whenever the
distance is nonzero. -/
def contactNormal (g : Geometry) (s : State) : ℝ × ℝ :=
  (((postCenter s).1 - (circleCenter g).1) / postDist g s,
   ((postCenter s).2 - (circleCenter g).2) / postDist g s)

/-- Reflection step of `update`: `v' = (v - 2 (v·n) n) * restitution` with
`restitution = 0.95`. -/
def reflect (n v : ℝ × ℝ) : ℝ × ℝ :=
  let dot := v.1 * n.1 + v.2 * n.2
  ((v.1 - 2 * dot * n.1) * 0.95, (v.2 - 2 * dot * n.2) * 0.95)

/-- Radius growth step of `update`:
`if (ballRadius < MAX) ballRadius = Math.min(ballRadius * BALL_GROWTH_RATE, MAX)`. -/
def grownRadius (g : Geometry) (rate r : ℝ) : ℝ :=
  if r < MAX_BALL_RADIUS g then min (r * rate) (MAX_BALL_RADIUS g) else r

/-- Uniform scaling of a velocity, used for the VELOCITY_INCREASE_FACTOR step
and the minimum-velocity rescue (`v *= k`). -/
def scaleV (k : ℝ) (v : ℝ × ℝ) : ℝ × ℝ := (v.1 * k, v.2 * k)

/-- Speed as computed in `update`: `Math.sqrt(vx ** 2 + vy ** 2)`. -/
def speed (v : ℝ × ℝ) : ℝ := Real.sqrt (v.1 ^ 2 + v.2 ^ 2)

/-- Minimum-velocity rescue of `update`: with `minVelocity = 1.0`, if the
current speed is below it, scale both components by `minVelocity / speed`. -/
def enforceMinVelocity (v : ℝ × ℝ) : ℝ × ℝ :=
  if speed v < 1 then scaleV (1 / speed v) v else v

/-- One call of the private `update` method, driven by the scheduler with the
current wall-clock instant `now` (the code reads `performance.now()`).  The
`onCollision` observer call in the collision branch is modelled by incrementing
`collisionCount`. -/
def update (g : Geometry) (now : ℝ) (s : State) : State :=
  let base : State :=
    { s with
      elapsedTime := (now - s.startTime) / 1000
      previousPositions := pushCapped MOTION_BLUR_STEPS s.ballCenter s.previousPositions
      ballVelocity := tickVelocity s.config s.ballVelocity
      ballCenter := postCenter s }
  if CIRCLE_RADIUS g - s.ballRadius ≤ postDist g s then
    let n := contactNormal g s
    let newRadius := grownRadius g s.config.BALL_GROWTH_RATE s.ballRadius
    { base with
      ballVelocity :=
        enforceMinVelocity
          (scaleV s.config.VELOCITY_INCREASE_FACTOR
            (reflect n (tickVelocity s.config s.ballVelocity)))
      ballRadius := newRadius
      collisionPoints :=
        pushCapped MAX_COLLISION_POINTS
          ((circleCenter g).1 + CIRCLE_RADIUS g * n.1,
           (circleCenter g).2 + CIRCLE_RADIUS g * n.2)
          s.collisionPoints
      ballCenter :=
        ((circleCenter g).1 + (CIRCLE_RADIUS g - newRadius) * n.1,
         (circleCenter g).2 + (CIRCLE_RADIUS g - newRadius) * n.2)
      collisionCount := s.collisionCount + 1 }
  else base

/-- The public `reset` method (the regenerated random display color is not part
of the modelled state). -/
def reset (g : Geometry) (now : ℝ) (s : State) : State :=
  { s with
    ballRadius := INITIAL_BALL_RADIUS
    ballCenter := (g.WIDTH / 2, g.HEIGHT / 2.7)
    ballVelocity := (0.8, 0.8)
    collisionPoints := []
    previousPositions := []
    startTime := now
    elapsedTime := 0 }

/-- The public `setGravity` setter: stores the argument unchanged. -/
def setGravity (v : ℝ) (s : State) : State :=
  { s with config := { s.config with GRAVITY := v } }

/-- The public `setVelocityIncrease` setter: stores `1 + value`. -/
def setVelocityIncrease (v : ℝ) (s : State) : State :=
  { s with config := { s.config with VELOCITY_INCREASE_FACTOR := 1 + v } }

/-- The public `setVelocityDecay` setter: stores the argument unchanged. -/
def setVelocityDecay (v : ℝ) (s : State) : State :=
  { s with config := { s.config with VELOCITY_DECAY := v } }

/-- The public `setBallGrowthRate` setter: stores `1 + value`. -/
def setBallGrowthRate (v : ℝ) (s : State) : State :=
  { s with config := { s.config with BALL_GROWTH_RATE := 1 + v } }

/-- The public `start` method: if not running, re-anchor
`startTime = now - elapsedTime * 1000`; then set `running = true`.  The
`animate()` call it then makes is the scheduler loop, whose individual ticks
are modelled as separate `update` events. -/
def start (now : ℝ) (s : State) : State :=
  let s' := if s.running then s else { s with startTime := now - s.elapsedTime * 1000 }
  { s' with running := true }

/-- The public `stop` method: `running = false` (plus `cancelAnimationFrame`,
which only prevents further ticks). -/
def stop (s : State) : State := { s with running := false }

/-- The public `handleMouseDown` method: enter dragging and stop the loop when
the pointer is within `ballRadius` of the ball center. -/
def handleMouseDown (x y : ℝ) (s : State) : State :=
  if distance (x, y) s.ballCenter ≤ s.ballRadius then
    stop { s with isDragging := true }
  else s

/-- The public `handleMouseMove` method: while dragging, put the ball center at
the pointer and zero the velocity (the `draw()` call has no state effect). -/
def handleMouseMove (x y : ℝ) (s : State) : State :=
  if s.isDragging then { s with ballCenter := (x, y), ballVelocity := (0, 0) } else s

/-- The public `handleMouseUp` method: leave dragging and restart the loop. -/
def handleMouseUp (now : ℝ) (s : State) : State :=
  if s.isDragging then start now { s with isDragging := false } else s

/-- The private `setupRecording` method: builds the combined stream and installs
a brand-new MediaRecorder (always created in state `'inactive'`), replacing any
previous one; its `ondataavailable` and `onstop` handlers are modelled by the
`dataAvailable` and `stopRecording` transitions below. -/
def setupRecording (s : State) : State :=
  { s with
    mediaRecorder := some { rid := s.nextRecorderId, recState := RecState.inactive }
    nextRecorderId := s.nextRecorderId + 1 }

/-- The public `startRecording` method: call `setupRecording`, then, if the
(just created) recorder is `'inactive'`, clear `chunks`, store the completion
callback, and start the recorder. -/
def startRecording (onComplete : Option ℕ) (s : State) : State :=
  let s' := setupRecording s
  match s'.mediaRecorder with
  | some mr =>
      if mr.recState = RecState.inactive then
        { s' with
          chunks := []
          onRecordingComplete := onComplete
          mediaRecorder := some { rid := mr.rid, recState := RecState.recording } }
      else s'
  | none => s'

/-- An `ondataavailable` delivery from the recorder with a nonempty chunk:
`this.chunks.push(e.data)`. -/
def dataAvailable (b : ℕ) (s : State) : State := { s with chunks := s.chunks ++ [b] }

/-- The recorder's `onstop` handler: assemble the final blob from `chunks`,
invoke `onRecordingComplete` on it when set (logged in `completions`), then
clear `chunks`. -/
def fireOnStop (s : State) : State :=
  { s with completions := s.completions ++ s.onRecordingComplete.toList, chunks := [] }

/-- The public `stopRecording` method: if the current recorder is
`'recording'`, stop it, which transitions it to `'inactive'` and fires its
`onstop` handler exactly once. -/
def stopRecording (s : State) : State :=
  match s.mediaRecorder with
  | some mr =>
      if mr.recState = RecState.recording then
        fireOnStop { s with mediaRecorder := some { rid := mr.rid, recState := RecState.inactive } }
      else s
  | none => s

/-- Every externally triggerable transition of the class, for statements that
quantify over arbitrary operation sequences. -/
inductive Op where
  | tick (now : ℝ)
  | resetOp (now : ℝ)
  | startOp (now : ℝ)
  | stopOp
  | mouseDown (x y : ℝ)
  | mouseMove (x y : ℝ)
  | mouseUp (now : ℝ)
  | setG (v : ℝ)
  | setVI (v : ℝ)
  | setVD (v : ℝ)
  | setBG (v : ℝ)
  | startRec (cb : Option ℕ)
  | stopRec
  | dataAvail (b : ℕ)

/-- One operation applied to the state.  A scheduler tick runs `update` only
when `running` holds, matching the guard at the top of `animate`. -/
def stepOp (g : Geometry) (s : State) (op : Op) : State :=
  match op with
  | Op.tick now => if s.running then update g now s else s
  | Op.resetOp now => reset g now s
  | Op.startOp now => start now s
  | Op.stopOp => stop s
  | Op.mouseDown x y => handleMouseDown x y s
  | Op.mouseMove x y => handleMouseMove x y s
  | Op.mouseUp now => handleMouseUp now s
  | Op.setG v => setGravity v s
  | Op.setVI v => setVelocityIncrease v s
  | Op.setVD v => setVelocityDecay v s
  | Op.setBG v => setBallGrowthRate v s
  | Op.startRec cb => startRecording cb s
  | Op.stopRec => stopRecording s
  | Op.dataAvail b => dataAvailable b s

/-- A sequence of operations applied in order. -/
def applyAll (g : Geometry) (ops : List Op) (s : State) : State :=
  ops.foldl (stepOp g) s

/-- A sequence of executed `update` ticks, at the given wall-clock instants. -/
def ticks (g : Geometry) (ts : List ℝ) (s : State) : State :=
  ts.foldl (fun a t => update g t a) s

/-- Bounded-history invariant of the two trail buffers. -/
def histInv (s : State) : Prop :=
  s.previousPositions.length ≤ MOTION_BLUR_STEPS ∧
  s.collisionPoints.length ≤ MAX_COLLISION_POINTS

/-- Concrete geometry for witnesses: a 650 × 650 canvas, so
CIRCLE_RADIUS = 200 and MAX_BALL_RADIUS = 300. -/
def g0 : Geometry := { WIDTH := 650, HEIGHT := 650 }

/-- Degenerate-free tuning used by several witnesses: zero gravity, decay 1,
velocity-increase factor 1, growth rate 1 (all reachable through the setters). -/
def cfgW : Config :=
  { GRAVITY := 0
    VELOCITY_INCREASE_FACTOR := 1
    VELOCITY_DECAY := 1
    BALL_GROWTH_RATE := 1 }

/-- Witness state: a radius-5 ball at (525, 325) moving with velocity (-3, 0)
inside the `g0` boundary (centered at (325, 325)), so the post-integration
center (522, 325) is at distance 197 ≥ 200 - 5 from the boundary center. -/
def sW : State :=
  { config := cfgW
    ballRadius := 5
    ballCenter := (525, 325)
    ballVelocity := (-3, 0)
    collisionPoints := []
    previousPositions := []
    startTime := 0
    elapsedTime := 0
    running := true
    isDragging := false
    collisionCount := 0
    mediaRecorder := none
    chunks := []
    onRecordingComplete := none
    nextRecorderId := 0
    completions := [] }

/-- Witness state with an oversized ball: radius 250 exceeds the boundary
radius 200 (but not MAX_BALL_RADIUS = 300), at rest at (425, 325). -/
def s1 : State :=
  { sW with ballRadius := 250, ballCenter := (425, 325), ballVelocity := (0, 0) }

/-- Witness state under the default configuration: velocity (0, -0.4) is
exactly cancelled by the default gravity 0.4, leaving a stationary ball in
contact with the wall. -/
def s2 : State :=
  { sW with config := defaultConfig, ballVelocity := (0, -0.4) }

/-- Witness state with an active drag. -/
def sD : State := { sW with isDragging := true }

/-- Witness state for the minimum-velocity rescue: like `sW` but with the slow
velocity (-0.4, 0), so the post-integration center (524.6, 325) still collides
while the reflected, increased speed 0.38 is below the floor. -/
def s3 : State := { sW with ballVelocity := (-0.4, 0) }

/-! Projection lemmas for `update`, splitting on the collision branch. -/

theorem update_elapsedTime (g : Geometry) (now : ℝ) (s : State) :
    (update g now s).elapsedTime = (now - s.startTime) / 1000 := by
  simp only [update]; split <;> rfl

theorem update_config (g : Geometry) (now : ℝ) (s : State) :
    (update g now s).config = s.config := by
  simp only [update]; split <;> rfl

theorem update_running (g : Geometry) (now : ℝ) (s : State) :
    (update g now s).running = s.running := by
  simp only [update]; split <;> rfl

theorem update_isDragging (g : Geometry) (now : ℝ) (s : State) :
    (update g now s).isDragging = s.isDragging := by
  simp only [update]; split <;> rfl

theorem update_previousPositions (g : Geometry) (now : ℝ) (s : State) :
    (update g now s).previousPositions =
      pushCapped MOTION_BLUR_STEPS s.ballCenter s.previousPositions := by
  simp only [update]; split <;> rfl

theorem update_hit_ballRadius {g : Geometry} (now : ℝ) {s : State}
    (h : CIRCLE_RADIUS g - s.ballRadius ≤ postDist g s) :
    (update g now s).ballRadius = grownRadius g s.config.BALL_GROWTH_RATE s.ballRadius := by
  simp only [update]; rw [if_pos h]

theorem update_miss_ballRadius {g : Geometry} (now : ℝ) {s : State}
    (h : ¬ (CIRCLE_RADIUS g - s.ballRadius ≤ postDist g s)) :
    (update g now s).ballRadius = s.ballRadius := by
  simp only [update]; rw [if_neg h]

theorem update_hit_ballVelocity {g : Geometry} (now : ℝ) {s : State}
    (h : CIRCLE_RADIUS g - s.ballRadius ≤ postDist g s) :
    (update g now s).ballVelocity =
      enforceMinVelocity
        (scaleV s.config.VELOCITY_INCREASE_FACTOR
          (reflect (contactNormal g s) (tickVelocity s.config s.ballVelocity))) := by
  simp only [update]; rw [if_pos h]

theorem update_hit_ballCenter {g : Geometry} (now : ℝ) {s : State}
    (h : CIRCLE_RADIUS g - s.ballRadius ≤ postDist g s) :
    (update g now s).ballCenter =
      ((circleCenter g).1 +
         (CIRCLE_RADIUS g - grownRadius g s.config.BALL_GROWTH_RATE s.ballRadius) *
           (contactNormal g s).1,
       (circleCenter g).2 +
         (CIRCLE_RADIUS g - grownRadius g s.config.BALL_GROWTH_RATE s.ballRadius) *
           (contactNormal g s).2) := by
  simp only [update]; rw [if_pos h]

theorem update_hit_collisionCount {g : Geometry} (now : ℝ) {s : State}
    (h : CIRCLE_RADIUS g - s.ballRadius ≤ postDist g s) :
    (update g now s).collisionCount = s.collisionCount + 1 := by
  simp only [update]; rw [if_pos h]

theorem update_miss_collisionCount {g : Geometry} (now : ℝ) {s : State}
    (h : ¬ (CIRCLE_RADIUS g - s.ballRadius ≤ postDist g s)) :
    (update g now s).collisionCount = s.collisionCount := by
  simp only [update]; rw [if_neg h]

theorem update_hit_collisionPoints {g : Geometry} (now : ℝ) {s : State}
    (h : CIRCLE_RADIUS g - s.ballRadius ≤ postDist g s) :
    (update g now s).collisionPoints =
      pushCapped MAX_COLLISION_POINTS
        ((circleCenter g).1 + CIRCLE_RADIUS g * (contactNormal g s).1,
         (circleCenter g).2 + CIRCLE_RADIUS g * (contactNormal g s).2)
        s.collisionPoints := by
  simp only [update]; rw [if_pos h]

theorem update_miss_collisionPoints {g : Geometry} (now : ℝ) {s : State}
    (h : ¬ (CIRCLE_RADIUS g - s.ballRadius ≤ postDist g s)) :
    (update g now s).collisionPoints = s.collisionPoints := by
  simp only [update]; rw [if_neg h]

/-! Facts about the capped FIFO push. -/

theorem pushCapped_length_le {α : Type} (cap : ℕ) (x : α) (l : List α)
    (h : l.length ≤ cap) : (pushCapped cap x l).length ≤ cap := by
  simp only [pushCapped]
  split
  · simp only [List.length_tail, List.length_append, List.length_cons, List.length_nil]
    omega
  · next hc =>
      simp only [List.length_append, List.length_cons, List.length_nil, not_lt] at hc
      simpa using hc

theorem pushCapped_of_full {α : Type} (cap : ℕ) (x : α) (l : List α)
    (hc : 0 < cap) (h : l.length = cap) : pushCapped cap x l = l.tail ++ [x] := by
  have hlt : cap < (l ++ [x]).length := by
    simp [List.length_append, h]
  simp only [pushCapped, if_pos hlt]
  cases l with
  | nil => simp at h; omega
  | cons a t => simp

theorem pushCapped_of_not_full {α : Type} (cap : ℕ) (x : α) (l : List α)
    (h : l.length < cap) : pushCapped cap x l = l ++ [x] := by
  simp only [pushCapped]
  rw [if_neg]
  simp only [List.length_append, List.length_cons, List.length_nil, not_lt]
  omega

/-! Geometry and speed facts. -/

theorem postDist_nonneg (g : Geometry) (s : State) : 0 ≤ postDist g s :=
  Real.sqrt_nonneg _

theorem postDist_sq (g : Geometry) (s : State) :
    postDist g s ^ 2 =
      ((postCenter s).1 - (circleCenter g).1) * ((postCenter s).1 - (circleCenter g).1) +
      ((postCenter s).2 - (circleCenter g).2) * ((postCenter s).2 - (circleCenter g).2) :=
  Real.sq_sqrt (add_nonneg (mul_self_nonneg _) (mul_self_nonneg _))

theorem contactNormal_normSq (g : Geometry) (s : State) (hd : postDist g s ≠ 0) :
    (contactNormal g s).1 ^ 2 + (contactNormal g s).2 ^ 2 = 1 := by
  have h2 := postDist_sq g s
  simp only [contactNormal]
  field_simp
  linear_combination - h2

theorem distance_add_normal (g : Geometry) (s : State) (hd : postDist g s ≠ 0) (k : ℝ) :
    distance
      ((circleCenter g).1 + k * (contactNormal g s).1,
       (circleCenter g).2 + k * (contactNormal g s).2)
      (circleCenter g) = |k| := by
  have hn := contactNormal_normSq g s hd
  simp only [distance]
  have harg :
      ((circleCenter g).1 + k * (contactNormal g s).1 - (circleCenter g).1) *
        ((circleCenter g).1 + k * (contactNormal g s).1 - (circleCenter g).1) +
      ((circleCenter g).2 + k * (contactNormal g s).2 - (circleCenter g).2) *
        ((circleCenter g).2 + k * (contactNormal g s).2 - (circleCenter g).2) =
      k ^ 2 * ((contactNormal g s).1 ^ 2 + (contactNormal g s).2 ^ 2) := by ring
  rw [harg, hn, mul_one, Real.sqrt_sq_eq_abs]

theorem speed_nonneg (v : ℝ × ℝ) : 0 ≤ speed v := Real.sqrt_nonneg _

theorem speed_scaleV (k : ℝ) (v : ℝ × ℝ) : speed (scaleV k v) = |k| * speed v := by
  simp only [speed, scaleV]
  have harg : (v.1 * k) ^ 2 + (v.2 * k) ^ 2 = k ^ 2 * (v.1 ^ 2 + v.2 ^ 2) := by ring
  rw [harg, Real.sqrt_mul (sq_nonneg k), Real.sqrt_sq_eq_abs]

theorem enforceMinVelocity_spec (v : ℝ × ℝ) (hv : speed v ≠ 0) :
    1 ≤ speed (enforceMinVelocity v) ∧
    (speed v < 1 → speed (enforceMinVelocity v) = 1) := by
  have hpos : 0 < speed v := lt_of_le_of_ne (speed_nonneg v) (Ne.symm hv)
  by_cases h : speed v < 1
  · have hone : speed (enforceMinVelocity v) = 1 := by
      simp only [enforceMinVelocity, if_pos h, speed_scaleV]
      rw [abs_of_pos (by positivity : (0 : ℝ) < 1 / speed v)]
      field_simp
    exact ⟨le_of_eq hone.symm, fun _ => hone⟩
  · simp only [enforceMinVelocity, if_neg h]
    exact ⟨not_lt.mp h, fun hc => absurd hc h⟩

/-! Concrete evaluations for the witness states. -/

theorem circleRadius_g0 : CIRCLE_RADIUS g0 = 200 := by
  norm_num [CIRCLE_RADIUS, g0]

theorem maxRadius_g0 : MAX_BALL_RADIUS g0 = 300 := by
  rw [MAX_BALL_RADIUS, circleRadius_g0]; norm_num

theorem circleCenter_g0 : circleCenter g0 = (325, 325) := by
  norm_num [circleCenter, g0]

theorem tickVelocity_sW : tickVelocity sW.config sW.ballVelocity = (-3, 0) := by
  norm_num [tickVelocity, applyGravity, applyDecay, sW, cfgW]

theorem postCenter_sW : postCenter sW = (522, 325) := by
  rw [postCenter, tickVelocity_sW]
  norm_num [tickCenter, sW]

theorem postDist_sW : postDist g0 sW = 197 := by
  rw [postDist, postCenter_sW, circleCenter_g0, distance]
  norm_num
  rw [show (38809 : ℝ) = 197 ^ 2 by norm_num]
  exact Real.sqrt_sq (by norm_num)

theorem contactNormal_sW : contactNormal g0 sW = (1, 0) := by
  rw [contactNormal, postCenter_sW, postDist_sW, circleCenter_g0]
  norm_num

theorem grownRadius_sW : grownRadius g0 sW.config.BALL_GROWTH_RATE sW.ballRadius = 5 := by
  have h5 : sW.ballRadius < MAX_BALL_RADIUS g0 := by
    rw [maxRadius_g0]; norm_num [sW]
  simp only [grownRadius, if_pos h5, maxRadius_g0]
  norm_num [sW, cfgW]

theorem hit_sW : CIRCLE_RADIUS g0 - sW.ballRadius ≤ postDist g0 sW := by
  rw [circleRadius_g0, postDist_sW]
  norm_num [sW]

theorem tickVelocity_s1 : tickVelocity s1.config s1.ballVelocity = (0, 0) := by
  norm_num [tickVelocity, applyGravity, applyDecay, s1, sW, cfgW]

theorem postCenter_s1 : postCenter s1 = (425, 325) := by
  rw [postCenter, tickVelocity_s1]
  norm_num [tickCenter, s1, sW]

theorem postDist_s1 : postDist g0 s1 = 100 := by
  rw [postDist, postCenter_s1, circleCenter_g0, distance]
  norm_num
  rw [show (10000 : ℝ) = 100 ^ 2 by norm_num]
  exact Real.sqrt_sq (by norm_num)

theorem contactNormal_s1 : contactNormal g0 s1 = (1, 0) := by
  rw [contactNormal, postCenter_s1, postDist_s1, circleCenter_g0]
  norm_num

theorem grownRadius_s1 : grownRadius g0 s1.config.BALL_GROWTH_RATE s1.ballRadius = 250 := by
  have h5 : s1.ballRadius < MAX_BALL_RADIUS g0 := by
    rw [maxRadius_g0]; norm_num [s1, sW]
  simp only [grownRadius, if_pos h5, maxRadius_g0]
  norm_num [s1, sW, cfgW]

theorem hit_s1 : CIRCLE_RADIUS g0 - s1.ballRadius ≤ postDist g0 s1 := by
  rw [circleRadius_g0, postDist_s1]
  norm_num [s1, sW]

theorem tickVelocity_s2 : tickVelocity s2.config s2.ballVelocity = (0, 0) := by
  norm_num [tickVelocity, applyGravity, applyDecay, s2, sW, defaultConfig]

theorem postCenter_s2 : postCenter s2 = (525, 325) := by
  rw [postCenter, tickVelocity_s2]
  norm_num [tickCenter, s2, sW]

theorem postDist_s2 : postDist g0 s2 = 200 := by
  rw [postDist, postCenter_s2, circleCenter_g0, distance]
  norm_num
  rw [show (40000 : ℝ) = 200 ^ 2 by norm_num]
  exact Real.sqrt_sq (by norm_num)

theorem contactNormal_s2 : contactNormal g0 s2 = (1, 0) := by
  rw [contactNormal, postCenter_s2, postDist_s2, circleCenter_g0]
  norm_num

theorem hit_s2 : CIRCLE_RADIUS g0 - s2.ballRadius ≤ postDist g0 s2 := by
  rw [circleRadius_g0, postDist_s2]
  norm_num [s2, sW]

theorem tickVelocity_s3 : tickVelocity s3.config s3.ballVelocity = (-(2/5 : ℝ), (0 : ℝ)) := by
  norm_num [tickVelocity, applyGravity, applyDecay, s3, sW, cfgW]

theorem postCenter_s3 : postCenter s3 = ((2623/5 : ℝ), (325 : ℝ)) := by
  rw [postCenter, tickVelocity_s3]
  norm_num [tickCenter, s3, sW]

theorem postDist_s3 : postDist g0 s3 = 998/5 := by
  rw [postDist, postCenter_s3, circleCenter_g0, distance]
  rw [show (((2623/5 : ℝ), (325 : ℝ)).1 - ((325 : ℝ), (325 : ℝ)).1) *
        (((2623/5 : ℝ), (325 : ℝ)).1 - ((325 : ℝ), (325 : ℝ)).1) +
        (((2623/5 : ℝ), (325 : ℝ)).2 - ((325 : ℝ), (325 : ℝ)).2) *
        (((2623/5 : ℝ), (325 : ℝ)).2 - ((325 : ℝ), (325 : ℝ)).2) = (998/5 : ℝ) ^ 2
    by norm_num]
  exact Real.sqrt_sq (by norm_num)

theorem contactNormal_s3 : contactNormal g0 s3 = (1, 0) := by
  rw [contactNormal, postCenter_s3, postDist_s3, circleCenter_g0]
  norm_num

theorem hit_s3 : CIRCLE_RADIUS g0 - s3.ballRadius ≤ postDist g0 s3 := by
  rw [circleRadius_g0, postDist_s3]
  norm_num [s3, sW]

/-! Radius evolution. -/

theorem ticks_cons (g : Geometry) (t : ℝ) (rest : List ℝ) (s : State) :
    ticks g (t :: rest) s = ticks g rest (update g t s) := rfl

theorem grownRadius_le_of_one_le (g : Geometry) {rate r : ℝ} (hrate : 1 ≤ rate)
    (h0 : 0 ≤ r) (hmax : r ≤ MAX_BALL_RADIUS g) :
    r ≤ grownRadius g rate r ∧ grownRadius g rate r ≤ MAX_BALL_RADIUS g := by
  simp only [grownRadius]
  split
  · next h => exact ⟨le_min (le_mul_of_one_le_right h0 hrate) h.le, min_le_right _ _⟩
  · exact ⟨le_rfl, hmax⟩

theorem update_radius_step (g : Geometry) (now : ℝ) (s : State)
    (hrate : 1 ≤ s.config.BALL_GROWTH_RATE) (h0 : 0 ≤ s.ballRadius)
    (hmax : s.ballRadius ≤ MAX_BALL_RADIUS g) :
    s.ballRadius ≤ (update g now s).ballRadius ∧
    (update g now s).ballRadius ≤ MAX_BALL_RADIUS g := by
  by_cases h : CIRCLE_RADIUS g - s.ballRadius ≤ postDist g s
  · rw [update_hit_ballRadius now h]
    exact grownRadius_le_of_one_le g hrate h0 hmax
  · rw [update_miss_ballRadius now h]
    exact ⟨le_rfl, hmax⟩

theorem ticks_radius (g : Geometry) (ts : List ℝ) :
    ∀ s : State, 1 ≤ s.config.BALL_GROWTH_RATE → 0 ≤ s.ballRadius →
      s.ballRadius ≤ MAX_BALL_RADIUS g →
      s.ballRadius ≤ (ticks g ts s).ballRadius ∧
      (ticks g ts s).ballRadius ≤ MAX_BALL_RADIUS g := by
  induction ts with
  | nil => exact fun s _ _ hmax => ⟨le_rfl, hmax⟩
  | cons t rest ih =>
      intro s hrate h0 hmax
      rw [ticks_cons]
      have hstep := update_radius_step g t s hrate h0 hmax
      have hrate' : 1 ≤ (update g t s).config.BALL_GROWTH_RATE := by
        rw [update_config]; exact hrate
      have hrest := ih (update g t s) hrate' (le_trans h0 hstep.1) hstep.2
      exact ⟨le_trans hstep.1 hrest.1, hrest.2⟩

/-- Claim C1, amended: over every sequence of ticks between two resets the
ball's radius never decreases and stays within
[INITIAL_BALL_RADIUS, MAX_BALL_RADIUS], provided the growth-rate setter was
given a nonnegative argument (so the stored rate is at least 1) and the radius
starts in that interval (as it does after `reset` whenever
INITIAL_BALL_RADIUS ≤ MAX_BALL_RADIUS).  The original universally quantified
form over every setter argument is refuted by
`radius_decreases_under_negative_growth`. -/
theorem radius_mono_bounded (g : Geometry) (ts : List ℝ) (s : State) (v : ℝ)
    (hv : 0 ≤ v)
    (hlo : INITIAL_BALL_RADIUS ≤ s.ballRadius)
    (hhi : s.ballRadius ≤ MAX_BALL_RADIUS g) :
    s.ballRadius ≤ (ticks g ts (setBallGrowthRate v s)).ballRadius ∧
    INITIAL_BALL_RADIUS ≤ (ticks g ts (setBallGrowthRate v s)).ballRadius ∧
    (ticks g ts (setBallGrowthRate v s)).ballRadius ≤ MAX_BALL_RADIUS g := by
  have hrad : (setBallGrowthRate v s).ballRadius = s.ballRadius := rfl
  have hrate : 1 ≤ (setBallGrowthRate v s).config.BALL_GROWTH_RATE := by
    simp only [setBallGrowthRate]; linarith
  have h0 : 0 ≤ s.ballRadius :=
    le_trans (by norm_num [INITIAL_BALL_RADIUS]) hlo
  have h := ticks_radius g ts (setBallGrowthRate v s) hrate (hrad ▸ h0) (hrad ▸ hhi)
  rw [hrad] at h
  exact ⟨h.1, le_trans hlo h.1, h.2⟩

/-- Witness for the amended C1 at a concrete collision tick. -/
theorem radius_mono_bounded_witness :
    (0 : ℝ) ≤ 0 ∧ INITIAL_BALL_RADIUS ≤ sW.ballRadius ∧ sW.ballRadius ≤ MAX_BALL_RADIUS g0 ∧
    (sW.ballRadius ≤ (ticks g0 [0] (setBallGrowthRate 0 sW)).ballRadius ∧
     INITIAL_BALL_RADIUS ≤ (ticks g0 [0] (setBallGrowthRate 0 sW)).ballRadius ∧
     (ticks g0 [0] (setBallGrowthRate 0 sW)).ballRadius ≤ MAX_BALL_RADIUS g0) :=
  ⟨le_rfl, by norm_num [INITIAL_BALL_RADIUS, sW],
   by rw [maxRadius_g0]; norm_num [sW],
   radius_mono_bounded g0 [0] sW 0 le_rfl
     (by norm_num [INITIAL_BALL_RADIUS, sW])
     (by rw [maxRadius_g0]; norm_num [sW])⟩

/-- Counterexample to claim C1 as stated: after `setBallGrowthRate(-0.5)` the
stored growth rate is 0.5, and the very next collision tick shrinks the radius
from 5 to 2.5, strictly below INITIAL_BALL_RADIUS. -/
theorem radius_decreases_under_negative_growth :
    (update g0 0 (setBallGrowthRate (-(1/2)) sW)).ballRadius < INITIAL_BALL_RADIUS ∧
    (update g0 0 (setBallGrowthRate (-(1/2)) sW)).ballRadius <
      (setBallGrowthRate (-(1/2)) sW).ballRadius := by
  have hpd : postDist g0 (setBallGrowthRate (-(1/2)) sW) = 197 := by
    rw [postDist, postCenter]
    norm_num [tickCenter, tickVelocity, applyGravity, applyDecay, distance,
      circleCenter, setBallGrowthRate, sW, cfgW, g0]
    rw [show (38809 : ℝ) = 197 ^ 2 by norm_num]
    exact Real.sqrt_sq (by norm_num)
  have hhit : CIRCLE_RADIUS g0 - (setBallGrowthRate (-(1/2)) sW).ballRadius ≤
      postDist g0 (setBallGrowthRate (-(1/2)) sW) := by
    rw [circleRadius_g0, hpd]
    norm_num [setBallGrowthRate, sW]
  rw [update_hit_ballRadius 0 hhit]
  have h5 : (setBallGrowthRate (-(1/2)) sW).ballRadius < MAX_BALL_RADIUS g0 := by
    rw [maxRadius_g0]; norm_num [setBallGrowthRate, sW]
  simp only [grownRadius, if_pos h5, maxRadius_g0]
  have hmin : min ((setBallGrowthRate (-(1/2)) sW).ballRadius *
      (setBallGrowthRate (-(1/2)) sW).config.BALL_GROWTH_RATE) (300 : ℝ) = 5/2 := by
    rw [show (setBallGrowthRate (-(1/2)) sW).ballRadius *
        (setBallGrowthRate (-(1/2)) sW).config.BALL_GROWTH_RATE = 5/2 from by
      norm_num [setBallGrowthRate, sW, cfgW]]
    exact min_eq_left (by norm_num)
  rw [hmin]
  norm_num [INITIAL_BALL_RADIUS, setBallGrowthRate, sW]

/-- Claim C7: while a drag is active, `handleMouseMove(x, y)` puts the ball
center exactly at (x, y), zeroes the velocity, and leaves the radius and both
histories untouched. -/
theorem drag_move_effect (s : State) (x y : ℝ) (h : s.isDragging = true) :
    (handleMouseMove x y s).ballCenter = (x, y) ∧
    (handleMouseMove x y s).ballVelocity = (0, 0) ∧
    (handleMouseMove x y s).ballRadius = s.ballRadius ∧
    (handleMouseMove x y s).previousPositions = s.previousPositions ∧
    (handleMouseMove x y s).collisionPoints = s.collisionPoints := by
  simp [handleMouseMove, h]

/-- Witness for C7 on a concrete dragging state. -/
theorem drag_move_effect_witness :
    sD.isDragging = true ∧
    ((handleMouseMove 7 9 sD).ballCenter = (7, 9) ∧
     (handleMouseMove 7 9 sD).ballVelocity = (0, 0) ∧
     (handleMouseMove 7 9 sD).ballRadius = sD.ballRadius ∧
     (handleMouseMove 7 9 sD).previousPositions = sD.previousPositions ∧
     (handleMouseMove 7 9 sD).collisionPoints = sD.collisionPoints) :=
  ⟨rfl, drag_move_effect sD 7 9 rfl⟩

/-- Claim C8: `stop()` followed by `start()` at instant `t` re-anchors the
clock, so the elapsed time computed by the next tick (at instant `tNext`)
continues from the frozen value with no jump, whatever real time passed while
stopped. -/
theorem elapsed_continuous_across_stop_start (g : Geometry) (s : State) (t tNext : ℝ) :
    (update g tNext (start t (stop s))).elapsedTime =
      s.elapsedTime + (tNext - t) / 1000 := by
  rw [update_elapsedTime]
  have h1 : (start t (stop s)).startTime = t - s.elapsedTime * 1000 := by
    simp [start, stop]
  rw [h1]; ring

/-- Claim C10: the four setters are not uniform — gravity and decay store the
argument itself, while velocity-increase and growth-rate store `1 + argument`. -/
theorem setter_semantics (v : ℝ) (s : State) :
    (setGravity v s).config.GRAVITY = v ∧
    (setVelocityDecay v s).config.VELOCITY_DECAY = v ∧
    (setVelocityIncrease v s).config.VELOCITY_INCREASE_FACTOR = 1 + v ∧
    (setBallGrowthRate v s).config.BALL_GROWTH_RATE = 1 + v :=
  ⟨rfl, rfl, rfl, rfl⟩

/-! Further evaluation helpers shared by witnesses. -/

theorem enforceMinVelocity_of_ge (v : ℝ × ℝ) (h : 1 ≤ speed v) :
    enforceMinVelocity v = v := by
  simp only [enforceMinVelocity]
  rw [if_neg (not_lt.mpr h)]

theorem speed_5720 : speed ((57/20 : ℝ), (0 : ℝ)) = 57/20 := by
  simp only [speed]
  rw [show ((57/20 : ℝ), (0 : ℝ)).1 ^ 2 + ((57/20 : ℝ), (0 : ℝ)).2 ^ 2 = (57/20 : ℝ) ^ 2
    by norm_num]
  exact Real.sqrt_sq (by norm_num)

/-- Claim C3, amended: immediately after a collision tick, provided the ball
center was not exactly at the boundary center and the post-growth radius does
not exceed the boundary radius, the ball center lies along the contact normal
at distance exactly `CIRCLE_RADIUS - ballRadius` from the boundary center (the
real-arithmetic model makes "within floating-point tolerance" exact).  When the
radius exceeds the boundary radius the equation fails, as
`collision_reposition_oversized_cex` shows. -/
theorem collision_reposition_no_penetration (g : Geometry) (now : ℝ) (s : State)
    (hcol : CIRCLE_RADIUS g - s.ballRadius ≤ postDist g s)
    (hd : postDist g s ≠ 0)
    (hr : grownRadius g s.config.BALL_GROWTH_RATE s.ballRadius ≤ CIRCLE_RADIUS g) :
    (update g now s).ballCenter =
      ((circleCenter g).1 +
         (CIRCLE_RADIUS g - (update g now s).ballRadius) * (contactNormal g s).1,
       (circleCenter g).2 +
         (CIRCLE_RADIUS g - (update g now s).ballRadius) * (contactNormal g s).2) ∧
    distance (update g now s).ballCenter (circleCenter g) =
      CIRCLE_RADIUS g - (update g now s).ballRadius := by
  have hrad := update_hit_ballRadius now hcol
  have hcen := update_hit_ballCenter now hcol
  constructor
  · rw [hcen, hrad]
  · rw [hcen, hrad, distance_add_normal g s hd, abs_of_nonneg (sub_nonneg.mpr hr)]

/-- Witness for the amended C3: the radius-5 witness collision ends with the
ball exactly 195 = 200 - 5 from the boundary center. -/
theorem collision_reposition_no_penetration_witness :
    CIRCLE_RADIUS g0 - sW.ballRadius ≤ postDist g0 sW ∧
    distance (update g0 0 sW).ballCenter (circleCenter g0) =
      CIRCLE_RADIUS g0 - (update g0 0 sW).ballRadius ∧
    CIRCLE_RADIUS g0 - (update g0 0 sW).ballRadius = 195 := by
  have hd : postDist g0 sW ≠ 0 := by rw [postDist_sW]; norm_num
  have hr : grownRadius g0 sW.config.BALL_GROWTH_RATE sW.ballRadius ≤ CIRCLE_RADIUS g0 := by
    rw [grownRadius_sW, circleRadius_g0]; norm_num
  refine ⟨hit_sW, (collision_reposition_no_penetration g0 0 sW hit_sW hd hr).2, ?_⟩
  rw [update_hit_ballRadius 0 hit_sW, grownRadius_sW, circleRadius_g0]
  norm_num

/-- Counterexample to claim C3 as stated: with radius 250 > boundary radius
200, a collision is resolved (the observer fires), yet the post-tick distance
from the boundary center is 50 = |200 - 250|, not 200 - 250 = -50. -/
theorem collision_reposition_oversized_cex :
    (update g0 0 s1).collisionCount = s1.collisionCount + 1 ∧
    distance (update g0 0 s1).ballCenter (circleCenter g0) ≠
      CIRCLE_RADIUS g0 - (update g0 0 s1).ballRadius := by
  have hd : postDist g0 s1 ≠ 0 := by rw [postDist_s1]; norm_num
  refine ⟨update_hit_collisionCount 0 hit_s1, ?_⟩
  rw [update_hit_ballCenter 0 hit_s1, update_hit_ballRadius 0 hit_s1,
    distance_add_normal g0 s1 hd, grownRadius_s1, circleRadius_g0]
  rw [abs_of_nonpos (by norm_num : (200 : ℝ) - 250 ≤ 0)]
  norm_num

/-- Claim C9: MAX_BALL_RADIUS is fixed at 1.5 times the boundary radius, which
(for a positive boundary radius) strictly exceeds the boundary radius; and once
the post-growth radius exceeds the boundary radius, the reposition offset
`CIRCLE_RADIUS - radius` is negative, so the ball center ends up on the
opposite side of the boundary center from the contact normal (its signed
displacement along the normal is that negative offset). -/
theorem max_radius_exceeds_boundary (g : Geometry) (now : ℝ) (s : State)
    (hR : 0 < CIRCLE_RADIUS g)
    (hcol : CIRCLE_RADIUS g - s.ballRadius ≤ postDist g s)
    (hd : postDist g s ≠ 0)
    (hr : CIRCLE_RADIUS g < grownRadius g s.config.BALL_GROWTH_RATE s.ballRadius) :
    MAX_BALL_RADIUS g = CIRCLE_RADIUS g * 1.5 ∧
    CIRCLE_RADIUS g < MAX_BALL_RADIUS g ∧
    CIRCLE_RADIUS g - (update g now s).ballRadius < 0 ∧
    ((update g now s).ballCenter.1 - (circleCenter g).1) * (contactNormal g s).1 +
      ((update g now s).ballCenter.2 - (circleCenter g).2) * (contactNormal g s).2 =
      CIRCLE_RADIUS g - (update g now s).ballRadius := by
  have hn := contactNormal_normSq g s hd
  have hrad := update_hit_ballRadius now hcol
  have hcen := update_hit_ballCenter now hcol
  refine ⟨rfl, ?_, ?_, ?_⟩
  · rw [MAX_BALL_RADIUS]; linarith
  · rw [hrad]; linarith
  · rw [hcen, hrad]
    linear_combination
      (CIRCLE_RADIUS g - grownRadius g s.config.BALL_GROWTH_RATE s.ballRadius) * hn

/-- Witness for C9 on the oversized-ball state. -/
theorem max_radius_exceeds_boundary_witness :
    0 < CIRCLE_RADIUS g0 ∧
    CIRCLE_RADIUS g0 < grownRadius g0 s1.config.BALL_GROWTH_RATE s1.ballRadius ∧
    (MAX_BALL_RADIUS g0 = CIRCLE_RADIUS g0 * 1.5 ∧
     CIRCLE_RADIUS g0 < MAX_BALL_RADIUS g0 ∧
     CIRCLE_RADIUS g0 - (update g0 0 s1).ballRadius < 0 ∧
     ((update g0 0 s1).ballCenter.1 - (circleCenter g0).1) * (contactNormal g0 s1).1 +
       ((update g0 0 s1).ballCenter.2 - (circleCenter g0).2) * (contactNormal g0 s1).2 =
       CIRCLE_RADIUS g0 - (update g0 0 s1).ballRadius) := by
  have hR : 0 < CIRCLE_RADIUS g0 := by rw [circleRadius_g0]; norm_num
  have hd : postDist g0 s1 ≠ 0 := by rw [postDist_s1]; norm_num
  have hr : CIRCLE_RADIUS g0 < grownRadius g0 s1.config.BALL_GROWTH_RATE s1.ballRadius := by
    rw [circleRadius_g0, grownRadius_s1]; norm_num
  exact ⟨hR, hr, max_radius_exceeds_boundary g0 0 s1 hR hit_s1 hd hr⟩

/-- Claim C4, amended: immediately after a collision resolution — excluding the
degenerate case of the ball center at the boundary center, and provided the
post-reflection, post-increase velocity `v2` is nonzero — the ball's speed is
at least MIN_VELOCITY = 1; and when the intermediate speed is below 1, the
final velocity is exactly `v2` rescaled by the strictly positive factor
`1 / speed v2` (the code's `scale = minVelocity / currentVelocity`), i.e. a
rescale along the same direction, whose resulting speed is exactly 1.  At zero
intermediate velocity the rescue divides by zero and no floor is enforced, as
`collision_speed_floor_zero_velocity_cex` shows. -/
theorem collision_speed_floor (g : Geometry) (now : ℝ) (s : State) (v2 : ℝ × ℝ)
    (hv2 : v2 = scaleV s.config.VELOCITY_INCREASE_FACTOR
        (reflect (contactNormal g s) (tickVelocity s.config s.ballVelocity)))
    (hcol : CIRCLE_RADIUS g - s.ballRadius ≤ postDist g s)
    (hd : postDist g s ≠ 0)
    (hv : speed v2 ≠ 0) :
    1 ≤ speed ((update g now s).ballVelocity) ∧
    (speed v2 < 1 →
      (update g now s).ballVelocity = scaleV (1 / speed v2) v2 ∧
      0 < 1 / speed v2 ∧
      speed ((update g now s).ballVelocity) = 1) := by
  have hpos : 0 < speed v2 := lt_of_le_of_ne (speed_nonneg v2) (Ne.symm hv)
  rw [update_hit_ballVelocity now hcol, ← hv2]
  refine ⟨(enforceMinVelocity_spec v2 hv).1, fun hlt => ⟨?_, by positivity,
    (enforceMinVelocity_spec v2 hv).2 hlt⟩⟩
  simp only [enforceMinVelocity, if_pos hlt]

/-- Witness for the amended C4, exercising the rescue branch: the reflected,
increased velocity is (0.38, 0) with speed 0.38 < 1, and the tick rescales it
along the same direction to exactly (1, 0), of speed exactly 1. -/
theorem collision_speed_floor_witness :
    speed (scaleV s3.config.VELOCITY_INCREASE_FACTOR
      (reflect (contactNormal g0 s3) (tickVelocity s3.config s3.ballVelocity))) = 19/50 ∧
    1 ≤ speed ((update g0 0 s3).ballVelocity) ∧
    (update g0 0 s3).ballVelocity = ((1 : ℝ), (0 : ℝ)) ∧
    speed ((update g0 0 s3).ballVelocity) = 1 := by
  have hv2eq : scaleV s3.config.VELOCITY_INCREASE_FACTOR
      (reflect (contactNormal g0 s3) (tickVelocity s3.config s3.ballVelocity)) =
      ((19/50 : ℝ), (0 : ℝ)) := by
    rw [contactNormal_s3, tickVelocity_s3]
    norm_num [scaleV, reflect, s3, sW, cfgW]
  have hsp : speed ((19/50 : ℝ), (0 : ℝ)) = 19/50 := by
    simp only [speed]
    rw [show ((19/50 : ℝ), (0 : ℝ)).1 ^ 2 + ((19/50 : ℝ), (0 : ℝ)).2 ^ 2 = (19/50 : ℝ) ^ 2
      by norm_num]
    exact Real.sqrt_sq (by norm_num)
  have h := collision_speed_floor g0 0 s3 _ rfl hit_s3
    (by rw [postDist_s3]; norm_num)
    (by rw [hv2eq, hsp]; norm_num)
  obtain ⟨heq, hposf, hone⟩ := h.2 (by rw [hv2eq, hsp]; norm_num)
  refine ⟨by rw [hv2eq, hsp], h.1, ?_, hone⟩
  rw [heq, hv2eq, hsp]
  norm_num [scaleV]

/-- Counterexample to claim C4 as stated: under the default configuration, a
ball resting on the wall with velocity (0, -0.4) — gravity exactly cancels
it — collides with zero reflected velocity; the `1/speed` rescale divides by
zero, and the post-collision speed is 0, far below MIN_VELOCITY. -/
theorem collision_speed_floor_zero_velocity_cex :
    (update g0 0 s2).collisionCount = s2.collisionCount + 1 ∧
    speed ((update g0 0 s2).ballVelocity) < 1 := by
  refine ⟨update_hit_collisionCount 0 hit_s2, ?_⟩
  rw [update_hit_ballVelocity 0 hit_s2, contactNormal_s2, tickVelocity_s2]
  have hrefl : reflect ((1 : ℝ), (0 : ℝ)) ((0 : ℝ), (0 : ℝ)) = (0, 0) := by
    norm_num [reflect]
  rw [hrefl]
  have hscale : scaleV s2.config.VELOCITY_INCREASE_FACTOR ((0 : ℝ), (0 : ℝ)) = (0, 0) := by
    norm_num [scaleV]
  rw [hscale]
  have hsp0 : speed ((0 : ℝ), (0 : ℝ)) = 0 := by
    simp [speed]
  have hzero : enforceMinVelocity ((0 : ℝ), (0 : ℝ)) = (0, 0) := by
    simp only [enforceMinVelocity, hsp0]
    rw [if_pos (by norm_num)]
    norm_num [scaleV]
  rw [hzero, hsp0]
  norm_num

/-- Claim C5: on every tick a collision is resolved (the collision observer
fires) exactly when the post-integration distance from the boundary center is
at least `CIRCLE_RADIUS - ballRadius`; and on collision the velocity is first
set to `(v - 2 (v·n) n) * 0.95` — with `n` the unit vector from the boundary
center to the ball center and `v` the post-gravity, post-decay velocity —
before the velocity-increase and minimum-speed stages. -/
theorem collision_trigger_iff_and_reflection (g : Geometry) (now : ℝ) (s : State)
    (v n : ℝ × ℝ)
    (hv : v = tickVelocity s.config s.ballVelocity)
    (hn : n = contactNormal g s) :
    ((update g now s).collisionCount = s.collisionCount + 1 ↔
      CIRCLE_RADIUS g - s.ballRadius ≤ postDist g s) ∧
    (CIRCLE_RADIUS g - s.ballRadius ≤ postDist g s →
      (update g now s).ballVelocity =
        enforceMinVelocity
          (scaleV s.config.VELOCITY_INCREASE_FACTOR
            ((v.1 - 2 * (v.1 * n.1 + v.2 * n.2) * n.1) * 0.95,
             (v.2 - 2 * (v.1 * n.1 + v.2 * n.2) * n.2) * 0.95))) := by
  subst hv hn
  constructor
  · constructor
    · intro h
      by_contra hc
      rw [update_miss_collisionCount now hc] at h
      omega
    · exact update_hit_collisionCount now
  · intro h
    rw [update_hit_ballVelocity now h]
    simp only [reflect]

/-- Witness for C5 on the concrete collision state: the observer fires once and
the final velocity is the reflected, restitution-scaled (2.85, 0). -/
theorem collision_trigger_iff_and_reflection_witness :
    (update g0 0 sW).collisionCount = sW.collisionCount + 1 ∧
    (update g0 0 sW).ballVelocity = ((57/20 : ℝ), (0 : ℝ)) := by
  have h := collision_trigger_iff_and_reflection g0 0 sW (-3, 0) (1, 0)
    tickVelocity_sW.symm contactNormal_sW.symm
  refine ⟨h.1.mpr hit_sW, ?_⟩
  rw [h.2 hit_sW]
  norm_num [scaleV, sW, cfgW]
  rw [enforceMinVelocity_of_ge _ (by rw [speed_5720]; norm_num)]

/-! History-bound preservation across all operations. -/

theorem start_previousPositions (now : ℝ) (s : State) :
    (start now s).previousPositions = s.previousPositions := by
  simp only [start]; split <;> rfl

theorem start_collisionPoints (now : ℝ) (s : State) :
    (start now s).collisionPoints = s.collisionPoints := by
  simp only [start]; split <;> rfl

theorem histInv_update (g : Geometry) (now : ℝ) (s : State) (h : histInv s) :
    histInv (update g now s) := by
  obtain ⟨h1, h2⟩ := h
  constructor
  · rw [update_previousPositions]
    exact pushCapped_length_le _ _ _ h1
  · by_cases hc : CIRCLE_RADIUS g - s.ballRadius ≤ postDist g s
    · rw [update_hit_collisionPoints now hc]
      exact pushCapped_length_le _ _ _ h2
    · rw [update_miss_collisionPoints now hc]
      exact h2

theorem histInv_step (g : Geometry) (s : State) (op : Op) (h : histInv s) :
    histInv (stepOp g s op) := by
  cases op with
  | tick now =>
      simp only [stepOp]
      split
      · exact histInv_update g now s h
      · exact h
  | resetOp now =>
      exact ⟨by norm_num [stepOp, reset, MOTION_BLUR_STEPS],
             by norm_num [stepOp, reset, MAX_COLLISION_POINTS]⟩
  | startOp now =>
      exact ⟨by rw [stepOp, start_previousPositions]; exact h.1,
             by rw [stepOp, start_collisionPoints]; exact h.2⟩
  | stopOp => exact h
  | mouseDown x y =>
      simp only [stepOp, handleMouseDown]
      split <;> exact h
  | mouseMove x y =>
      simp only [stepOp, handleMouseMove]
      split <;> exact h
  | mouseUp now =>
      simp only [stepOp, handleMouseUp]
      split
      · exact ⟨by rw [start_previousPositions]; exact h.1,
               by rw [start_collisionPoints]; exact h.2⟩
      · exact h
  | setG v => exact h
  | setVI v => exact h
  | setVD v => exact h
  | setBG v => exact h
  | startRec cb =>
      simp only [stepOp, startRecording, setupRecording]
      split <;> exact h
  | stopRec =>
      cases hmr : s.mediaRecorder with
      | none => simp only [stepOp, stopRecording, hmr]; exact h
      | some mr =>
          simp only [stepOp, stopRecording, hmr]
          split <;> exact h
  | dataAvail b => exact h

theorem histInv_applyAll (g : Geometry) (ops : List Op) :
    ∀ s : State, histInv s → histInv (applyAll g ops s) := by
  induction ops with
  | nil => exact fun _ h => h
  | cons op rest ih => exact fun s h => ih (stepOp g s op) (histInv_step g s op h)

/-- Claim C6: after every sequence of operations, the motion-sample history
holds at most MOTION_BLUR_STEPS entries and the collision-point history at most
MAX_COLLISION_POINTS entries, and the capped push evicts exactly the oldest
entry on overflow (and appends plainly otherwise), i.e. strict FIFO order. -/
theorem histories_bounded_fifo (g : Geometry) (ops : List Op) (s : State)
    (h : histInv s) (cap : ℕ) (x : ℝ × ℝ) (l : List (ℝ × ℝ)) (hcap : 0 < cap) :
    histInv (applyAll g ops s) ∧
    (l.length = cap → pushCapped cap x l = l.tail ++ [x]) ∧
    (l.length < cap → pushCapped cap x l = l ++ [x]) :=
  ⟨histInv_applyAll g ops s h,
   fun hl => pushCapped_of_full cap x l hcap hl,
   fun hl => pushCapped_of_not_full cap x l hl⟩

/-- Witness for C6: a stop operation on the empty-history state, and a
full 2-capacity buffer evicting its oldest element. -/
theorem histories_bounded_fifo_witness :
    histInv sW ∧ (0 : ℕ) < 2 ∧
    histInv (applyAll g0 [Op.stopOp] sW) ∧
    pushCapped 2 ((9 : ℝ), (9 : ℝ)) [((1 : ℝ), (1 : ℝ)), ((2 : ℝ), (2 : ℝ))] =
      [((2 : ℝ), (2 : ℝ)), ((9 : ℝ), (9 : ℝ))] := by
  have h : histInv sW :=
    ⟨by norm_num [sW, MOTION_BLUR_STEPS], by norm_num [sW, MAX_COLLISION_POINTS]⟩
  have hfull := histories_bounded_fifo g0 [Op.stopOp] sW h 2 (9, 9)
    [((1 : ℝ), (1 : ℝ)), ((2 : ℝ), (2 : ℝ))] (by norm_num)
  exact ⟨h, by norm_num, hfull.1, hfull.2.1 rfl⟩

/-- Claim C2 fails on the code: `startRecording` always runs `setupRecording`
first, which installs a brand-new (inactive) MediaRecorder, so the
`state === 'inactive'` guard always passes.  Starting twice without stopping is
therefore not a no-op: after one chunk has arrived, the second `startRecording`
empties the chunk buffer, overwrites the completion callback, and replaces the
recorder object. -/
theorem startRecording_twice_not_noop :
    (dataAvailable 7 (startRecording (some 0) sW)).chunks = [7] ∧
    (dataAvailable 7 (startRecording (some 0) sW)).onRecordingComplete = some 0 ∧
    (dataAvailable 7 (startRecording (some 0) sW)).mediaRecorder =
      some { rid := 0, recState := RecState.recording } ∧
    (startRecording (some 1) (dataAvailable 7 (startRecording (some 0) sW))).chunks = [] ∧
    (startRecording (some 1) (dataAvailable 7 (startRecording (some 0) sW))).onRecordingComplete
      = some 1 ∧
    (startRecording (some 1) (dataAvailable 7 (startRecording (some 0) sW))).mediaRecorder =
      some { rid := 1, recState := RecState.recording } :=
  ⟨rfl, rfl, rfl, rfl, rfl, rfl⟩

end

end CircleSimulation
